import Mathlib

/-!
Shallow embedding of the Endless Gateway proxy server (src/index.js).

The gateway is a single Express handler `POST /api/proxy/:service` that
  1. resolves the caller's per-user API key (`getUserApiKey`),
  2. looks the `:service` path parameter up in a static route table,
  3. re-emits the request downstream (JSON mode or multipart form mode,
     chosen by presence of a file attachment), and
  4. relays the downstream content type and raw body bytes.

External collaborators (Firebase token verification, the Firestore user
document read, and the axios HTTP transport) are modelled as oracles
bundled in a `World` record; the per-request pipeline is a pure function
from a `World` and an inbound `Request` to an `HttpResponse` together
with the trace of external calls it performed.
-/

namespace EndlessGateway

/-- Raw bytes (a `Buffer` in the JavaScript source). -/
abbrev Bytes := List Nat

/-- A JSON-ish body field value, as produced by the body parsers; `toStr`
below mirrors the string coercion applied when a value is appended to a
multipart form. -/
inductive JVal where
  | str (s : String)
  | num (n : Int)
  | boolV (b : Bool)
  deriving Repr, DecidableEq

/-- String coercion of a body field value, as the form encoder applies it. -/
def JVal.toStr : JVal → String
  | .str s => s
  | .num n => toString n
  | .boolV b => if b then "true" else "false"

/-- The single uploaded file that multer may attach to the request
(`req.file`): its in-memory buffer and original filename. -/
structure FilePart where
  buffer : Bytes
  originalname : String
  deriving Repr, DecidableEq

/-- An inbound request as the handler sees it: the `authorization` header
(if present), the `:service` path parameter, the parsed body field
mapping in iteration order, and the optional file attachment. -/
structure Request where
  authorization : Option String
  service : String
  body : List (String × JVal)
  file : Option FilePart
  deriving Repr, DecidableEq

/-- One part of an outbound multipart form body. -/
inductive MultipartPart where
  | filePart (name : String) (bytes : Bytes) (filename : String)
  | fieldPart (name : String) (value : String)
  deriving Repr, DecidableEq

/-- The body of an outbound (downstream) request: either the JSON field
mapping forwarded unchanged, or an encoded multipart form. -/
inductive OutboundBody where
  | json (fields : List (String × JVal))
  | multipart (parts : List MultipartPart)
  deriving Repr, DecidableEq

/-- An outbound HTTP request handed to the transport. -/
structure OutboundRequest where
  url : String
  headers : List (String × String)
  body : OutboundBody
  deriving Repr, DecidableEq

/-- A downstream HTTP response: its status code, declared content type,
and raw body bytes. -/
structure DownstreamResponse where
  status : Nat
  contentType : String
  data : Bytes
  deriving Repr, DecidableEq

/-- Result of one outbound transport call: a response, or a raised
transport exception carrying a message. -/
inductive TransportResult where
  | response (r : DownstreamResponse)
  | failure (msg : String)
  deriving Repr, DecidableEq

/-- Result of verifying a bearer token with the identity provider. -/
inductive VerifyResult where
  | ok (uid : String)
  | err (msg : String)
  deriving Repr, DecidableEq

/-- A user document fetched from the document store: whether the record
exists, and the nested `api.key` secret if present. -/
structure UserDoc where
  exists_ : Bool
  apiKey : Option String
  deriving Repr, DecidableEq

/-- The external world the handler runs against: the identity provider,
the document store, the HTTP transport, and the multipart boundary the
form encoder happens to generate. -/
structure World where
  verifyIdToken : String → VerifyResult
  getUserDoc : String → UserDoc
  transport : OutboundRequest → TransportResult
  boundary : String

/-- The separator the source splits the authorization header on: the
seven characters of the string literal given to `split` and
`startsWith`. -/
def bearerChars : List Char := ['B', 'e', 'a', 'r', 'e', 'r', ' ']

/-- JavaScript `authHeader.startsWith` applied to that literal: does the
header begin with the seven separator characters. -/
def hasBearerStart (s : String) : Bool :=
  match s.toList with
  | 'B' :: 'e' :: 'a' :: 'r' :: 'e' :: 'r' :: ' ' :: _ => true
  | _ => false

/-- Core of JavaScript string `split` on the seven-character separator:
scan left to right, cutting at each occurrence; `acc` accumulates the
current segment in reverse. -/
def splitBearerAux (acc : List Char) : List Char → List (List Char)
  | 'B' :: 'e' :: 'a' :: 'r' :: 'e' :: 'r' :: ' ' :: rest =>
      acc.reverse :: splitBearerAux [] rest
  | c :: rest => splitBearerAux (c :: acc) rest
  | [] => [acc.reverse]

/-- Does the bearer separator occur anywhere in the character list. -/
def hasBearer : List Char → Bool
  | 'B' :: 'e' :: 'a' :: 'r' :: 'e' :: 'r' :: ' ' :: _ => true
  | _ :: rest => hasBearer rest
  | [] => false

/-- JavaScript `s.split` on the bearer separator. -/
def jsSplitBearer (s : String) : List String :=
  (splitBearerAux [] s.toList).map String.mk

/-- The token the source extracts: `authHeader.split(...)[1]` (element 1
of the split, the empty string standing in for `undefined`). -/
def bearerToken (s : String) : String :=
  (jsSplitBearer s).getD 1 ""

/-- One external call made while serving a request, recorded for the
side-effect-freedom properties. -/
inductive CallEvent where
  | verifyToken (token : String)
  | fetchUserDoc (uid : String)
  | downstream (r : OutboundRequest)
  deriving Repr, DecidableEq

/-- Whether a call event is an outbound downstream call. -/
def isDownstream : CallEvent → Bool
  | CallEvent.downstream _ => true
  | _ => false

/-- Result of the identity-resolution helper: the resolved API key, or a
thrown error message. -/
inductive AuthResult where
  | ok (apiKey : String)
  | err (msg : String)
  deriving Repr, DecidableEq

/-- The `getUserApiKey` helper of the source: gate on the authorization
header shape, verify the extracted token, fetch the user document, and
read the nested `api.key` field (a falsy — absent or empty — key is
rejected). Returns the result with the trace of external calls made. -/
def getUserApiKey (w : World) (req : Request) : AuthResult × List CallEvent :=
  match req.authorization with
  | none => (AuthResult.err "Missing or invalid Authorization header", [])
  | some authHeader =>
    if hasBearerStart authHeader then
      let idToken := bearerToken authHeader
      match w.verifyIdToken idToken with
      | VerifyResult.err m => (AuthResult.err m, [CallEvent.verifyToken idToken])
      | VerifyResult.ok uid =>
        let userDoc := w.getUserDoc uid
        if userDoc.exists_ then
          match userDoc.apiKey with
          | some k =>
            if k = "" then
              (AuthResult.err "User API key not found",
                [CallEvent.verifyToken idToken, CallEvent.fetchUserDoc uid])
            else
              (AuthResult.ok k,
                [CallEvent.verifyToken idToken, CallEvent.fetchUserDoc uid])
          | none =>
            (AuthResult.err "User API key not found",
              [CallEvent.verifyToken idToken, CallEvent.fetchUserDoc uid])
        else
          (AuthResult.err "User not found in Firestore",
            [CallEvent.verifyToken idToken, CallEvent.fetchUserDoc uid])
    else
      (AuthResult.err "Missing or invalid Authorization header", [])

/-- The static route table of the source (`serviceMap`). -/
def serviceMap (service : String) : Option String :=
  match service with
  | "vectors" => some "https://endless-vectors-gxda.onrender.com/convert"
  | "images" => some "https://endless-images-second-life.onrender.com/convert"
  | "contact" => some "https://endless-bureaucracy.onrender.com/contact"
  | "profilepicture" => some "https://endless-bureaucracy.onrender.com/upload-profile-pic"
  | "profilename" => some "https://endless-bureaucracy.onrender.com/update-profile-name"
  | "codedetect" => some "https://endless-code-tools-api.onrender.com/detect"
  | "codecompact" => some "https://endless-code-tools-api.onrender.com/compact"
  | "codeuncompact" => some "https://endless-code-tools-api.onrender.com/uncompact"
  | "codeformat" => some "https://endless-code-tools-api.onrender.com/format"
  | _ => none

/-- `sendJsonRequest` of the source: forward the body unchanged with the
JSON content type and the `x-api-key` header. -/
def sendJsonRequest (targetUrl : String) (body : List (String × JVal)) (apiKey : String) :
    OutboundRequest :=
  { url := targetUrl,
    headers := [("Content-Type", "application/json"), ("x-api-key", apiKey)],
    body := OutboundBody.json body }

/-- The headers the form encoder generates (`form.getHeaders()`): the
multipart content type carrying the generated boundary. -/
def formGetHeaders (boundary : String) : List (String × String) :=
  [("content-type", "multipart/form-data; boundary=" ++ boundary)]

/-- `sendFormRequest` of the source: build a multipart form with the file
(if any) under field name `image`, then one field part per body entry in
iteration order with string-coerced values; headers are the encoder's
boundary headers plus `x-api-key`. -/
def sendFormRequest (targetUrl : String) (file : Option FilePart)
    (body : List (String × JVal)) (apiKey : String) (boundary : String) : OutboundRequest :=
  { url := targetUrl,
    headers := formGetHeaders boundary ++ [("x-api-key", apiKey)],
    body := OutboundBody.multipart
      ((match file with
        | some f => [MultipartPart.filePart "image" f.buffer f.originalname]
        | none => []) ++ body.map (fun kv => MultipartPart.fieldPart kv.1 kv.2.toStr)) }

/-- The outbound request the handler dispatches: form mode when a file is
attached, JSON mode otherwise. -/
def dispatchRequest (req : Request) (apiKey targetUrl boundary : String) : OutboundRequest :=
  match req.file with
  | some _ => sendFormRequest targetUrl req.file req.body apiKey boundary
  | none => sendJsonRequest targetUrl req.body apiKey

/-- Body of a gateway response: the two JSON error envelopes of the
source, or relayed raw downstream bytes with their content type. -/
inductive ResBody where
  | errorUnknownService
  | errorProxyFailed (details : String)
  | raw (contentType : String) (data : Bytes)
  deriving Repr, DecidableEq

/-- A gateway HTTP response: status code and body. -/
structure HttpResponse where
  status : Nat
  body : ResBody
  deriving Repr, DecidableEq

/-- The `POST /api/proxy/:service` handler of the source: resolve the API
key (any thrown error is caught into a 500 `Proxy failed` envelope),
validate the route (unknown service answers 400 directly), dispatch the
translated request, and relay the downstream content type and bytes;
a transport exception is caught into the same 500 envelope. Returns the
response with the trace of external calls made. -/
def proxyHandler (w : World) (req : Request) : HttpResponse × List CallEvent :=
  match getUserApiKey w req with
  | (AuthResult.err m, trace) =>
      ({ status := 500, body := ResBody.errorProxyFailed m }, trace)
  | (AuthResult.ok apiKey, trace) =>
    match serviceMap req.service with
    | none => ({ status := 400, body := ResBody.errorUnknownService }, trace)
    | some targetUrl =>
      let outReq := dispatchRequest req apiKey targetUrl w.boundary
      match w.transport outReq with
      | TransportResult.response r =>
          ({ status := 200, body := ResBody.raw r.contentType r.data },
            trace ++ [CallEvent.downstream outReq])
      | TransportResult.failure m =>
          ({ status := 500, body := ResBody.errorProxyFailed m },
            trace ++ [CallEvent.downstream outReq])

/-! ## Sample worlds and requests used by the witnesses -/

/-- A sample world: token `tok1` verifies to user `uid1`, whose document
holds API key `secret-key`; every transport call answers status 404 with
content type `text/plain` and body bytes `[104, 105]`. -/
def sampleWorld : World :=
  { verifyIdToken := fun t =>
      if t = "tok1" then VerifyResult.ok "uid1" else VerifyResult.err "invalid token",
    getUserDoc := fun uid =>
      if uid = "uid1" then { exists_ := true, apiKey := some "secret-key" }
      else { exists_ := false, apiKey := none },
    transport := fun _ =>
      TransportResult.response { status := 404, contentType := "text/plain", data := [104, 105] },
    boundary := "XBOUND" }

/-- A sample authenticated JSON-mode request to the `vectors` service. -/
def sampleJsonReq : Request :=
  { authorization := some "Bearer tok1", service := "vectors",
    body := [("a", JVal.num 1)], file := none }

/-- A sample uploaded file. -/
def sampleFile : FilePart := { buffer := [1, 2, 3], originalname := "pic.png" }

/-- A sample authenticated form-mode request to the `images` service with
one body field `caption = x`. -/
def sampleFormReq : Request :=
  { authorization := some "Bearer tok1", service := "images",
    body := [("caption", JVal.str "x")], file := some sampleFile }

/-- A request whose authorization header does not use the bearer
scheme. -/
def sampleBadAuthReq : Request :=
  { authorization := some "Token abc", service := "vectors", body := [], file := none }

/-- A request naming an unknown service, sent without an authorization
header. -/
def unknownServiceNoAuthReq : Request :=
  { authorization := none, service := "nosuchservice", body := [], file := none }

/-- An authenticated request naming an unknown service. -/
def sampleUnknownReq : Request :=
  { authorization := some "Bearer tok1", service := "nosuchservice", body := [], file := none }

/-- A world whose transport answers status 500 with opaque bytes and an
octet-stream content type. -/
def byteWorld : World :=
  { sampleWorld with
    transport := fun _ =>
      TransportResult.response
        { status := 500, contentType := "application/octet-stream", data := [0, 255, 7] } }

/-- A world where token `tA` verifies to a user with no document and
token `tB` to a user whose document lacks the nested `api.key`. -/
def authFailWorld : World :=
  { verifyIdToken := fun t =>
      if t = "tA" then VerifyResult.ok "uA"
      else if t = "tB" then VerifyResult.ok "uB"
      else VerifyResult.err "invalid token",
    getUserDoc := fun uid =>
      if uid = "uB" then { exists_ := true, apiKey := none }
      else { exists_ := false, apiKey := none },
    transport := fun _ => TransportResult.failure "unreachable",
    boundary := "B" }

/-- A valid-token request for the user with no document. -/
def reqNoDoc : Request :=
  { authorization := some "Bearer tA", service := "vectors", body := [], file := none }

/-- A valid-token request for the user whose document has no key. -/
def reqNoKey : Request :=
  { authorization := some "Bearer tB", service := "vectors", body := [], file := none }

/-- A request whose bearer header contains the separator a second time
inside the token text. -/
def doubleBearerReq : Request :=
  { authorization := some "Bearer aBearer b", service := "vectors", body := [], file := none }

/-! ## Helper lemmas -/

/-- The identity-resolution helper performs no downstream call: its trace
contains only token-verification and document-fetch events. -/
theorem getUserApiKey_trace_no_downstream (w : World) (req : Request) :
    ((getUserApiKey w req).2).filter isDownstream = [] := by
  unfold getUserApiKey
  rcases ha : req.authorization with _ | h
  · simp [ha]
  · by_cases hb : hasBearerStart h = true
    · rcases hv : w.verifyIdToken (bearerToken h) with uid | m
      · by_cases hd : (w.getUserDoc uid).exists_ = true
        · rcases hk : (w.getUserDoc uid).apiKey with _ | k
          · simp [ha, hb, hv, hd, hk, isDownstream]
          · by_cases he : k = "" <;> simp [ha, hb, hv, hd, hk, he, isDownstream]
        · simp [ha, hb, hv, hd, isDownstream]
      · simp [ha, hb, hv, isDownstream]
    · simp [ha, hb, isDownstream]

/-- When the separator occurs nowhere in the list, the split scan never
cuts: it returns the single segment made of the pending accumulator
followed by the whole remaining input. -/
theorem splitBearerAux_of_no_occurrence (acc t : List Char) (hno : hasBearer t = false) :
    splitBearerAux acc t = [acc.reverse ++ t] := by
  induction acc, t using splitBearerAux.induct with
  | case1 acc rest ih => simp [hasBearer] at hno
  | case2 acc c rest hx ih =>
      have hrest : hasBearer rest = false := by
        rw [hasBearer.eq_def] at hno
        split at hno <;> simp_all
      rw [splitBearerAux.eq_def]
      split
      · next rest2 heq =>
          injection heq with h1 h2
          exact absurd h2 (hx rest2 h1)
      · next c2 rest2 hne heq =>
          injection heq with h1 h2
          subst h1
          subst h2
          rw [ih hrest]
          simp
      · next heq => exact absurd heq (by simp)
  | case3 acc => simp [splitBearerAux]

/-- Whenever the header gate passes, the first recorded external call of
the identity-resolution helper is the token verification of the
extracted bearer token. -/
theorem getUserApiKey_trace_head (w : World) (req : Request) (h : String)
    (hh : req.authorization = some h) (hb : hasBearerStart h = true) :
    ((getUserApiKey w req).2).head? = some (CallEvent.verifyToken (bearerToken h)) := by
  unfold getUserApiKey
  rcases hv : w.verifyIdToken (bearerToken h) with uid | m
  · by_cases hd : (w.getUserDoc uid).exists_ = true
    · rcases hk : (w.getUserDoc uid).apiKey with _ | k
      · simp [hh, hb, hv, hd, hk]
      · by_cases he : k = "" <;> simp [hh, hb, hv, hd, hk, he]
    · simp [hh, hb, hv, hd]
  · simp [hh, hb, hv]

/-! ## Claims -/

/-- C1: every response of the proxy handler is one of: status 400 with
body `Unknown service` (exactly when identity resolution succeeded and
the service is not in the route table), status 500 with body
`Proxy failed` plus a details message (every other failure in the
pipeline), or a 200 relay of downstream bytes — routing is the only
error kind mapped to a distinct status code. -/
theorem c1_error_status_mapping (w : World) (req : Request) :
    (∃ apiKey, (getUserApiKey w req).1 = AuthResult.ok apiKey
      ∧ serviceMap req.service = none
      ∧ (proxyHandler w req).1 = ⟨400, ResBody.errorUnknownService⟩)
    ∨ (∃ m, (proxyHandler w req).1 = ⟨500, ResBody.errorProxyFailed m⟩)
    ∨ (∃ ct d, (proxyHandler w req).1 = ⟨200, ResBody.raw ct d⟩) := by
  rcases hg : getUserApiKey w req with ⟨ar, tr⟩
  cases ar with
  | err m =>
      exact Or.inr (Or.inl ⟨m, by simp [proxyHandler, hg]⟩)
  | ok apiKey =>
      rcases hs : serviceMap req.service with _ | targetUrl
      · refine Or.inl ⟨apiKey, ?_, ?_, ?_⟩ <;> simp [proxyHandler, hg, hs]
      · rcases ht : w.transport (dispatchRequest req apiKey targetUrl w.boundary) with r | m
        · exact Or.inr (Or.inr ⟨r.contentType, r.data, by simp [proxyHandler, hg, hs, ht]⟩)
        · exact Or.inr (Or.inl ⟨m, by simp [proxyHandler, hg, hs, ht]⟩)

/-- C2: when the request reaches dispatch and the transport returns a
downstream response — of any status code, 4xx and 5xx included — the
gateway forwards the downstream body and content type as its own success
response; the handler never inspects the downstream status. -/
theorem c2_status_agnostic_relay (w : World) (req : Request) (apiKey targetUrl : String)
    (r : DownstreamResponse)
    (hauth : (getUserApiKey w req).1 = AuthResult.ok apiKey)
    (hroute : serviceMap req.service = some targetUrl)
    (ht : w.transport (dispatchRequest req apiKey targetUrl w.boundary)
      = TransportResult.response r) :
    (proxyHandler w req).1 = ⟨200, ResBody.raw r.contentType r.data⟩ := by
  rcases hg : getUserApiKey w req with ⟨ar, tr⟩
  rw [hg] at hauth
  simp only at hauth
  subst hauth
  simp [proxyHandler, hg, hroute, ht]

/-- C2 witness: in the sample world the downstream answers 404, and the
gateway still relays body and content type with its own status 200. -/
theorem c2_status_agnostic_relay_witness :
    (proxyHandler sampleWorld sampleJsonReq).1
      = ⟨200, ResBody.raw "text/plain" [104, 105]⟩ :=
  c2_status_agnostic_relay sampleWorld sampleJsonReq "secret-key"
    "https://endless-vectors-gxda.onrender.com/convert"
    { status := 404, contentType := "text/plain", data := [104, 105] }
    (by decide) (by decide) (by decide)

/-- C3: for every authenticated, routed request exactly one downstream
call is made, and its translation mode is selected solely by presence of
a file attachment: no file gives JSON mode — the original body forwarded
unchanged under `Content-Type: application/json` and `x-api-key` — and
an attached file gives multipart form mode. -/
theorem c3_mode_selection (w : World) (req : Request) (apiKey targetUrl : String)
    (hauth : (getUserApiKey w req).1 = AuthResult.ok apiKey)
    (hroute : serviceMap req.service = some targetUrl) :
    ((proxyHandler w req).2).filter isDownstream
      = [CallEvent.downstream (dispatchRequest req apiKey targetUrl w.boundary)]
    ∧ (req.file = none →
        dispatchRequest req apiKey targetUrl w.boundary = sendJsonRequest targetUrl req.body apiKey
        ∧ (sendJsonRequest targetUrl req.body apiKey).body = OutboundBody.json req.body
        ∧ (sendJsonRequest targetUrl req.body apiKey).headers
            = [("Content-Type", "application/json"), ("x-api-key", apiKey)])
    ∧ (∀ f, req.file = some f →
        dispatchRequest req apiKey targetUrl w.boundary
          = sendFormRequest targetUrl (some f) req.body apiKey w.boundary
        ∧ ∃ parts, (sendFormRequest targetUrl (some f) req.body apiKey w.boundary).body
            = OutboundBody.multipart parts) := by
  rcases hg : getUserApiKey w req with ⟨ar, tr⟩
  rw [hg] at hauth
  simp only at hauth
  subst hauth
  have htr := getUserApiKey_trace_no_downstream w req
  rw [hg] at htr
  simp only at htr
  refine ⟨?_, ?_, ?_⟩
  · rcases ht : w.transport (dispatchRequest req apiKey targetUrl w.boundary) with r | m <;>
      simp [proxyHandler, hg, hroute, ht, List.filter_append, htr, isDownstream]
  · intro hf
    exact ⟨by simp [dispatchRequest, hf], rfl, rfl⟩
  · intro f hf
    exact ⟨by simp [dispatchRequest, hf], _, rfl⟩

/-- C3 witness: the sample JSON-mode request produces exactly one
downstream call, carrying the JSON-mode translation. -/
theorem c3_mode_selection_witness :
    ((proxyHandler sampleWorld sampleJsonReq).2).filter isDownstream
      = [CallEvent.downstream (sendJsonRequest
          "https://endless-vectors-gxda.onrender.com/convert" [("a", JVal.num 1)] "secret-key")] := by
  have h := c3_mode_selection sampleWorld sampleJsonReq "secret-key"
    "https://endless-vectors-gxda.onrender.com/convert" (by decide) (by decide)
  rw [h.1, (h.2.1 rfl).1]
  rfl

/-- C4: a form-mode request dispatches a multipart body whose first part
is the file under field name `image` with its raw bytes and original
filename, followed by one string-coerced field part per body entry in
iteration order; the headers are the encoder's boundary headers plus
`x-api-key`. -/
theorem c4_form_mode_encoding (w : World) (req : Request) (apiKey targetUrl : String)
    (f : FilePart)
    (hauth : (getUserApiKey w req).1 = AuthResult.ok apiKey)
    (hroute : serviceMap req.service = some targetUrl)
    (hfile : req.file = some f) :
    dispatchRequest req apiKey targetUrl w.boundary
      = { url := targetUrl,
          headers := formGetHeaders w.boundary ++ [("x-api-key", apiKey)],
          body := OutboundBody.multipart
            (MultipartPart.filePart "image" f.buffer f.originalname
              :: req.body.map (fun kv => MultipartPart.fieldPart kv.1 kv.2.toStr)) }
    ∧ CallEvent.downstream (dispatchRequest req apiKey targetUrl w.boundary)
        ∈ (proxyHandler w req).2 := by
  constructor
  · simp [dispatchRequest, hfile, sendFormRequest]
  · rcases hg : getUserApiKey w req with ⟨ar, tr⟩
    rw [hg] at hauth
    simp only at hauth
    subst hauth
    rcases ht : w.transport (dispatchRequest req apiKey targetUrl w.boundary) with r | m <;>
      simp [proxyHandler, hg, hroute, ht]

/-- C4 witness: the sample form-mode request is encoded as the `image`
file part followed by the `caption` field part, with boundary headers
plus `x-api-key`. -/
theorem c4_form_mode_encoding_witness :
    dispatchRequest sampleFormReq "secret-key"
        "https://endless-images-second-life.onrender.com/convert" sampleWorld.boundary
      = { url := "https://endless-images-second-life.onrender.com/convert",
          headers := formGetHeaders "XBOUND" ++ [("x-api-key", "secret-key")],
          body := OutboundBody.multipart
            [MultipartPart.filePart "image" [1, 2, 3] "pic.png",
             MultipartPart.fieldPart "caption" "x"] } := by
  have h := c4_form_mode_encoding sampleWorld sampleFormReq "secret-key"
    "https://endless-images-second-life.onrender.com/convert" sampleFile
    (by decide) (by decide) (by decide)
  rw [h.1]
  rfl

/-- C5: with a valid token, an existing user record and a present,
non-empty nested `api.key`, the resolved secret equals the stored value
exactly; that secret is attached verbatim as the `x-api-key` header of
the dispatched request, and in JSON mode the dispatched body is the
inbound body unchanged. -/
theorem c5_secret_and_body_fidelity (w : World) (req : Request) (h uid k : String)
    (hh : req.authorization = some h)
    (hb : hasBearerStart h = true)
    (hv : w.verifyIdToken (bearerToken h) = VerifyResult.ok uid)
    (hd : (w.getUserDoc uid).exists_ = true)
    (hk : (w.getUserDoc uid).apiKey = some k)
    (hne : k ≠ "") :
    (getUserApiKey w req).1 = AuthResult.ok k
    ∧ ∀ targetUrl, serviceMap req.service = some targetUrl →
        ("x-api-key", k) ∈ (dispatchRequest req k targetUrl w.boundary).headers
        ∧ (req.file = none →
            (dispatchRequest req k targetUrl w.boundary).body = OutboundBody.json req.body) := by
  constructor
  · simp [getUserApiKey, hh, hb, hv, hd, hk, hne]
  · intro targetUrl _
    constructor
    · rcases hf : req.file with _ | f <;>
        simp [dispatchRequest, hf, sendJsonRequest, sendFormRequest, formGetHeaders]
    · intro hf
      simp [dispatchRequest, hf, sendJsonRequest]

/-- C5 witness: in the sample world the resolved secret is exactly the
stored `secret-key`, and the sample JSON-mode request dispatches its
body unchanged. -/
theorem c5_secret_and_body_fidelity_witness :
    (getUserApiKey sampleWorld sampleJsonReq).1 = AuthResult.ok "secret-key"
    ∧ (dispatchRequest sampleJsonReq "secret-key"
        "https://endless-vectors-gxda.onrender.com/convert" "XBOUND").body
        = OutboundBody.json [("a", JVal.num 1)] := by
  have h := c5_secret_and_body_fidelity sampleWorld sampleJsonReq "Bearer tok1" "uid1" "secret-key"
    (by decide) (by decide) (by decide) (by decide) (by decide) (by decide)
  exact ⟨h.1, (h.2 "https://endless-vectors-gxda.onrender.com/convert" (by decide)).2 rfl⟩

/-- C6: when the authorization header is absent or does not start with
the bearer marker, the handler answers 500 with the
`Missing or invalid Authorization header` details, and its trace is
empty — neither the identity provider nor the document store (nor any
downstream service) is contacted. -/
theorem c6_auth_header_gate (w : World) (req : Request)
    (hbad : ∀ h, req.authorization = some h → hasBearerStart h = false) :
    (proxyHandler w req).1
      = ⟨500, ResBody.errorProxyFailed "Missing or invalid Authorization header"⟩
    ∧ (proxyHandler w req).2 = [] := by
  have hg : getUserApiKey w req
      = (AuthResult.err "Missing or invalid Authorization header", []) := by
    unfold getUserApiKey
    rcases ha : req.authorization with _ | h
    · rfl
    · simp [hbad h ha]
  exact ⟨by simp [proxyHandler, hg], by simp [proxyHandler, hg]⟩

/-- C6 witness: a non-bearer authorization header answers 500 with the
header error and an empty call trace. -/
theorem c6_auth_header_gate_witness :
    (proxyHandler sampleWorld sampleBadAuthReq).1
      = ⟨500, ResBody.errorProxyFailed "Missing or invalid Authorization header"⟩
    ∧ (proxyHandler sampleWorld sampleBadAuthReq).2 = [] := by
  refine c6_auth_header_gate sampleWorld sampleBadAuthReq ?_
  intro h hh
  simp only [sampleBadAuthReq, Option.some.injEq] at hh
  subst hh
  decide

/-- C7 counterexample: a request to an unknown service with a missing
authorization header answers 500 (the identity gate fires first), not
the claimed 400 `Unknown service` — so the 400 answer is not universal
over requests with unknown service names. -/
theorem c7_counterexample :
    serviceMap unknownServiceNoAuthReq.service = none
    ∧ (proxyHandler sampleWorld unknownServiceNoAuthReq).1.status = 500
    ∧ ¬ ((proxyHandler sampleWorld unknownServiceNoAuthReq).1.status = 400
          ∧ (proxyHandler sampleWorld unknownServiceNoAuthReq).1.body
              = ResBody.errorUnknownService) := by
  decide

/-- C7 (amended): for every request naming a service outside the static
route table whose identity resolution succeeds, the response is exactly
status 400 with body `Unknown service` and no downstream call occurs;
identity is resolved before routing is validated, so requests that also
fail identity resolution answer 500 instead. -/
theorem c7_unknown_service (w : World) (req : Request) (apiKey : String)
    (hauth : (getUserApiKey w req).1 = AuthResult.ok apiKey)
    (hroute : serviceMap req.service = none) :
    (proxyHandler w req).1 = ⟨400, ResBody.errorUnknownService⟩
    ∧ ((proxyHandler w req).2).filter isDownstream = [] := by
  rcases hg : getUserApiKey w req with ⟨ar, tr⟩
  rw [hg] at hauth
  simp only at hauth
  subst hauth
  have htr := getUserApiKey_trace_no_downstream w req
  rw [hg] at htr
  simp only at htr
  exact ⟨by simp [proxyHandler, hg, hroute], by simp [proxyHandler, hg, hroute, htr]⟩

/-- C7 witness: an authenticated request to an unknown service answers
exactly 400 `Unknown service` with no downstream call. -/
theorem c7_unknown_service_witness :
    (proxyHandler sampleWorld sampleUnknownReq).1 = ⟨400, ResBody.errorUnknownService⟩
    ∧ ((proxyHandler sampleWorld sampleUnknownReq).2).filter isDownstream = [] :=
  c7_unknown_service sampleWorld sampleUnknownReq "secret-key" (by decide) (by decide)

/-- C8: round-trip fidelity — whatever raw bytes and content-type string
the downstream response carries, the gateway's emitted response holds
byte-for-byte identical body bytes and the identical content-type value,
with no transformation. -/
theorem c8_round_trip_fidelity (w : World) (req : Request) (apiKey targetUrl ct : String)
    (bytes : Bytes) (s : Nat)
    (hauth : (getUserApiKey w req).1 = AuthResult.ok apiKey)
    (hroute : serviceMap req.service = some targetUrl)
    (ht : w.transport (dispatchRequest req apiKey targetUrl w.boundary)
      = TransportResult.response { status := s, contentType := ct, data := bytes }) :
    (proxyHandler w req).1.body = ResBody.raw ct bytes
    ∧ (proxyHandler w req).1.status = 200 := by
  rcases hg : getUserApiKey w req with ⟨ar, tr⟩
  rw [hg] at hauth
  simp only at hauth
  subst hauth
  exact ⟨by simp [proxyHandler, hg, hroute, ht], by simp [proxyHandler, hg, hroute, ht]⟩

/-- C8 witness: the opaque downstream bytes and content type come back
verbatim in the gateway response. -/
theorem c8_round_trip_fidelity_witness :
    (proxyHandler byteWorld sampleJsonReq).1.body
        = ResBody.raw "application/octet-stream" [0, 255, 7]
    ∧ (proxyHandler byteWorld sampleJsonReq).1.status = 200 :=
  c8_round_trip_fidelity byteWorld sampleJsonReq "secret-key"
    "https://endless-vectors-gxda.onrender.com/convert" "application/octet-stream"
    [0, 255, 7] 500 (by decide) (by decide) (by decide)

/-- C9: after successful token verification, a missing user record fails
the pipeline with the `User not found in Firestore` error and an
existing record without the nested `api.key` fails with
`User API key not found`; both surface as 500 `Proxy failed` responses
and in each case no downstream call is made. -/
theorem c9_authorization_failures (w : World) (req : Request) (h uid : String)
    (hh : req.authorization = some h)
    (hb : hasBearerStart h = true)
    (hv : w.verifyIdToken (bearerToken h) = VerifyResult.ok uid) :
    ((w.getUserDoc uid).exists_ = false →
      (proxyHandler w req).1 = ⟨500, ResBody.errorProxyFailed "User not found in Firestore"⟩
      ∧ ((proxyHandler w req).2).filter isDownstream = [])
    ∧ ((w.getUserDoc uid).exists_ = true → (w.getUserDoc uid).apiKey = none →
      (proxyHandler w req).1 = ⟨500, ResBody.errorProxyFailed "User API key not found"⟩
      ∧ ((proxyHandler w req).2).filter isDownstream = []) := by
  constructor
  · intro hd
    have hg : getUserApiKey w req = (AuthResult.err "User not found in Firestore",
        [CallEvent.verifyToken (bearerToken h), CallEvent.fetchUserDoc uid]) := by
      simp [getUserApiKey, hh, hb, hv, hd]
    exact ⟨by simp [proxyHandler, hg], by simp [proxyHandler, hg, isDownstream]⟩
  · intro hd hk
    have hg : getUserApiKey w req = (AuthResult.err "User API key not found",
        [CallEvent.verifyToken (bearerToken h), CallEvent.fetchUserDoc uid]) := by
      simp [getUserApiKey, hh, hb, hv, hd, hk]
    exact ⟨by simp [proxyHandler, hg], by simp [proxyHandler, hg, isDownstream]⟩

/-- C9 witness: the two authorization failures surface with their
respective messages on concrete requests. -/
theorem c9_authorization_failures_witness :
    (proxyHandler authFailWorld reqNoDoc).1
        = ⟨500, ResBody.errorProxyFailed "User not found in Firestore"⟩
    ∧ (proxyHandler authFailWorld reqNoKey).1
        = ⟨500, ResBody.errorProxyFailed "User API key not found"⟩ :=
  ⟨((c9_authorization_failures authFailWorld reqNoDoc "Bearer tA" "uA"
      (by decide) (by decide) (by decide)).1 (by decide)).1,
   ((c9_authorization_failures authFailWorld reqNoKey "Bearer tB" "uB"
      (by decide) (by decide) (by decide)).2 (by decide) (by decide)).1⟩

/-- C10 counterexample: the header `Bearer aBearer b` starts with the
bearer marker and passes the gate, but the token handed to the identity
provider is `a` — the split segment before the next occurrence of the
marker — not the remainder `aBearer b` after the first occurrence. -/
theorem c10_counterexample :
    hasBearerStart "Bearer aBearer b" = true
    ∧ String.drop "Bearer aBearer b" 7 = "aBearer b"
    ∧ bearerToken "Bearer aBearer b" = "a"
    ∧ (getUserApiKey sampleWorld doubleBearerReq).2 = [CallEvent.verifyToken "a"]
    ∧ bearerToken "Bearer aBearer b" ≠ String.drop "Bearer aBearer b" 7 := by
  decide

/-- C10 (amended): the malformed-header gate checks only that the header
starts with `Bearer ` — a header equal to exactly `Bearer ` (empty
token) passes, as does any token text after the marker — and the token
forwarded verbatim to the identity provider is the segment of the
header between the first occurrence of `Bearer ` and the next
occurrence of the marker; in particular it is the full remainder after
the first `Bearer ` whenever the marker does not occur again in that
remainder. -/
theorem c10_bearer_token_extraction (w : World) (t : List Char) (service : String)
    (body : List (String × JVal)) (file : Option FilePart)
    (hno : hasBearer t = false) :
    hasBearerStart (String.mk (bearerChars ++ t)) = true
    ∧ bearerToken (String.mk (bearerChars ++ t)) = String.mk t
    ∧ ((getUserApiKey w
        { authorization := some (String.mk (bearerChars ++ t)), service := service,
          body := body, file := file }).2).head?
        = some (CallEvent.verifyToken (String.mk t)) := by
  have hbt : bearerToken (String.mk (bearerChars ++ t)) = String.mk t := by
    have h1 : splitBearerAux [] (String.mk (bearerChars ++ t)).toList
        = [].reverse :: splitBearerAux [] t := rfl
    unfold bearerToken jsSplitBearer
    rw [h1, splitBearerAux_of_no_occurrence [] t hno]
    simp
  refine ⟨rfl, hbt, ?_⟩
  have hhead := getUserApiKey_trace_head w
    { authorization := some (String.mk (bearerChars ++ t)), service := service,
      body := body, file := file }
    (String.mk (bearerChars ++ t)) rfl rfl
  rw [hbt] at hhead
  exact hhead

/-- C10 witness: the header consisting of exactly the marker `Bearer `
(empty token) passes the gate, and the empty remainder is forwarded to
the identity provider. -/
theorem c10_bearer_token_extraction_witness :
    hasBearerStart (String.mk (bearerChars ++ [])) = true
    ∧ bearerToken (String.mk (bearerChars ++ [])) = String.mk []
    ∧ ((getUserApiKey sampleWorld
        { authorization := some (String.mk (bearerChars ++ [])), service := "vectors",
          body := [], file := none }).2).head?
        = some (CallEvent.verifyToken (String.mk [])) :=
  c10_bearer_token_extraction sampleWorld [] "vectors" [] none (by decide)

end EndlessGateway
